import Mathlib

/-!
Shallow embedding of the funding-rate arbitrage valuation core
(`fr_arbitrage_bot.py` and the pure scoring part of
`fr_arbitrage_discord_bot.py`) over exact rational arithmetic.

Python floats are modelled as rationals; Python exceptions raised by the
embedded code paths (registry lookup failure, float division by zero,
`int(math.inf)`) are modelled with an `Except PyErr` result.  Exchange
adapters reached through the global registry are modelled as an explicit
environment of total functions plus the list of registered names.
-/

namespace FrArb

/-- Exceptions the embedded Python code can raise on the modelled paths:
`ValueError` from `get_adapter` on an unregistered exchange name,
`ZeroDivisionError` from float division by zero, and `OverflowError`
from `int(math.inf)`. -/
inductive PyErr where
  | valueError
  | zeroDivisionError
  | overflowError
deriving DecidableEq, Repr

/-- Python float division `a / b`: raises `ZeroDivisionError` when the
divisor is zero (Python floats do not silently produce infinities here). -/
def pydiv (a b : ℚ) : Except PyErr ℚ :=
  if b = 0 then Except.error PyErr.zeroDivisionError else Except.ok (a / b)

/-- `Leg` dataclass (fr_arbitrage_bot.py lines 46-55). -/
structure Leg where
  exchange : String
  symbol : String
  side : String
  notional : ℚ
  qty : ℚ
  mark_price : ℚ
  fee_rate_taker : ℚ
  vwap_slippage_est_bps : ℚ
deriving DecidableEq, Repr

/-- `EvalResult` dataclass (lines 78-94).  `n_min` is an `int` in the
source (the else-branch `int(inf)` raises, so a constructed record always
holds a finite integer). -/
structure EvalResult where
  symbol : String
  high_fr_ex : String
  low_fr_ex : String
  interval_h : ℚ
  diff_per_int : ℚ
  diff_4h : ℚ
  be_per_int : ℚ
  be_4h : ℚ
  apr_gross_pct : ℚ
  apr_net_pct : ℚ
  n_min : ℤ
  notional_total : ℚ
  fees_total_usdt : ℚ
  entry_basis_cost_usdt : ℚ
  decision : String
deriving DecidableEq, Repr

/-- `Position` dataclass (lines 63-76).  Timestamps are modelled as
rational epoch seconds. -/
structure Position where
  leg_a : Leg
  leg_b : Leg
  entry_ts : ℚ
  entry_diff_4h : ℚ
  leverage : ℚ
  next_funding_ts : ℚ
  interval_h : ℚ
  fees_total_usdt : ℚ
  entry_basis_cost_usdt : ℚ
  notional_total : ℚ
  entry_be_per_int : ℚ
  entry_n_min : ℤ
deriving DecidableEq, Repr

/-- `PositionStatus` dataclass (lines 96-118). -/
structure PositionStatus where
  symbol : String
  short_ex : String
  long_ex : String
  interval_h : ℚ
  diff_per_int_now : ℚ
  diff_4h_now : ℚ
  be_per_int_now : ℚ
  be_4h_now : ℚ
  apr_gross_now_pct : ℚ
  apr_net_now_pct : ℚ
  n_min_now : ℤ
  diff_per_int_entry : ℚ
  apr_gross_entry_pct : ℚ
  n_min_entry : ℤ
  diff_delta_bp : ℚ
  apr_gross_delta_pct : ℚ
  n_min_delta : ℤ
  est_pnl_usdt : ℚ
  entry_ts : ℚ
  now_ts : ℚ
  entry_basis_cost_usdt : ℚ
deriving DecidableEq, Repr

/-- The adapter registry plus the adapter methods the evaluated code calls.
`registered` models the keys of `_EXCHANGE_REGISTRY`; the three functions
model `fetch_fr_4h`, `fetch_mark_price` and `round_qty_to_lot` of a
registered adapter (external collaborators, total by assumption). -/
structure Env where
  registered : List String
  fr4h : String → String → String → ℚ
  markPrice : String → String → ℚ
  roundQty : String → String → ℚ → ℚ

/-- `fetch_fr_4h` wrapper (lines 127-128): `get_adapter` raises
`ValueError` for an unregistered exchange, otherwise the adapter call. -/
def fetch_fr_4h (env : Env) (exchange symbol mode : String) : Except PyErr ℚ :=
  if exchange ∈ env.registered then Except.ok (env.fr4h exchange symbol mode)
  else Except.error PyErr.valueError

/-- `fetch_mark_price` wrapper (lines 130-131). -/
def fetch_mark_price (env : Env) (exchange symbol : String) : Except PyErr ℚ :=
  if exchange ∈ env.registered then Except.ok (env.markPrice exchange symbol)
  else Except.error PyErr.valueError

/-- `est_vwap_slippage_cost` (lines 146-147). -/
def est_vwap_slippage_cost (notional vwap_slippage_bps : ℚ) : ℚ :=
  notional * (vwap_slippage_bps / 10000)

/-- `be_fr_4h` (lines 149-152): the `9e9` sentinel when notional is not
positive, otherwise cost over notional. -/
def be_fr_4h (fees_total_usdt notional_total_usdt : ℚ) : ℚ :=
  if notional_total_usdt ≤ 0 then 9000000000
  else fees_total_usdt / notional_total_usdt

/-- `total_fees_with_slippage` (lines 154-158). -/
def total_fees_with_slippage (leg_a leg_b : Leg) : ℚ :=
  let fees := (leg_a.notional * leg_a.fee_rate_taker
      + leg_b.notional * leg_b.fee_rate_taker) * 2
  let slip_a := est_vwap_slippage_cost leg_a.notional leg_a.vwap_slippage_est_bps * 2
  let slip_b := est_vwap_slippage_cost leg_b.notional leg_b.vwap_slippage_est_bps * 2
  fees + slip_a + slip_b

/-- `estimate_entry_basis_cost_usdt` (lines 160-175). -/
def estimate_entry_basis_cost_usdt
    (short_px_ref long_px_ref qty_short_base qty_long_base
      slip_bps_short slip_bps_long : ℚ) : ℚ :=
  let exp_sell := short_px_ref * (1 - slip_bps_short / 10000)
  let exp_buy := long_px_ref * (1 + slip_bps_long / 10000)
  let matched_qty := max 0 (min qty_short_base qty_long_base)
  let gap := exp_buy - exp_sell
  max 0 gap * matched_qty

/-- `estimate_pnl_now` (lines 177-192): elapsed period count is
`max(0, (now - entry).total_seconds() / 3600.0 / 4.0)` — the divisor 4 is
hard-coded in the source. -/
def estimate_pnl_now (notional_total diff_now_4h entry_ts now
    leg_fees_total entry_basis_cost_usdt : ℚ) : ℚ :=
  let periods := max 0 ((now - entry_ts) / 3600 / 4)
  let gross := notional_total * diff_now_4h * periods
  gross - (leg_fees_total + entry_basis_cost_usdt)

/-- The keep/watch/close classification (lines 276-282 of
`evaluate_candidate`, step 8). -/
def decisionOf (margin_bps keep_margin_bp : ℚ) : String :=
  if margin_bps ≥ keep_margin_bp then "keep"
  else if margin_bps ≥ 0 then "watch"
  else "close"

/-- Step 3 of `evaluate_candidate` (lines 243-250): fetch the two mark
prices, derive lot-rounded base quantities from the per-side notional, and
build the short (high-FR) and long (low-FR) legs. -/
def candidate_legs (env : Env) (symbol high_fr_ex low_fr_ex : String)
    (side_notional_usdt fee_high fee_low slip_high slip_low : ℚ) :
    Except PyErr (Leg × Leg) := do
  let price_high ← fetch_mark_price env high_fr_ex symbol
  let price_low ← fetch_mark_price env low_fr_ex symbol
  let qh ← pydiv side_notional_usdt price_high
  let qty_high := env.roundQty high_fr_ex symbol (max 0 qh)
  let ql ← pydiv side_notional_usdt price_low
  let qty_low := env.roundQty low_fr_ex symbol (max 0 ql)
  pure (Leg.mk high_fr_ex symbol "short" (qty_high * price_high) qty_high
      price_high fee_high slip_high,
    Leg.mk low_fr_ex symbol "long" (qty_low * price_low) qty_low
      price_low fee_low slip_low)

/-- Steps 4-8 of `evaluate_candidate` (lines 252-300) on the already
constructed legs: costs, break-even, APRs, `n_min`, decision, result
record.  `annual_mult = 24/interval_h` raises `ZeroDivisionError` on a
zero interval; `n_min = int(ceil(...))` divides by
`notional_total * diff_per_int`, and the `else int(inf)` branch raises
`OverflowError` in Python. -/
def eval_finish (symbol high_fr_ex low_fr_ex : String)
    (fr_high_4h fr_low_4h : ℚ) (leg_h leg_l : Leg)
    (interval_h keep_margin_bp : ℚ) : Except PyErr EvalResult := do
  let fees_total := total_fees_with_slippage leg_h leg_l
  let entry_basis_cost := estimate_entry_basis_cost_usdt leg_h.mark_price
      leg_l.mark_price leg_h.qty leg_l.qty leg_h.vwap_slippage_est_bps
      leg_l.vwap_slippage_est_bps
  let notional_total := leg_h.notional + leg_l.notional
  let be_4h := be_fr_4h (fees_total + entry_basis_cost) notional_total
  let be_per_int := be_4h * (interval_h / 4)
  let diff_4h := |fr_high_4h - fr_low_4h|
  let diff_per_int := diff_4h * (interval_h / 4)
  let am ← pydiv 24 interval_h
  let annual_mult := am * 365
  let apr_gross_pct := max 0 (diff_per_int * annual_mult * 100)
  let apr_net_pct := max 0 ((diff_per_int - be_per_int) * annual_mult * 100)
  if diff_per_int > 0 then
    let pre ← pydiv (fees_total + entry_basis_cost) (notional_total * diff_per_int)
    let n_min := Int.ceil pre
    let margin_bps := (diff_per_int - be_per_int) * 10000
    pure (EvalResult.mk symbol high_fr_ex low_fr_ex interval_h diff_per_int
      diff_4h be_per_int be_4h apr_gross_pct apr_net_pct n_min notional_total
      fees_total entry_basis_cost (decisionOf margin_bps keep_margin_bp))
  else
    throw PyErr.overflowError

/-- `evaluate_candidate` (lines 216-300): fetch the two funding rates,
orient the pair so the higher-FR exchange is the short side, build the
legs, then finish the evaluation. -/
def evaluate_candidate (env : Env) (symbol exA exB : String)
    (side_notional_usdt fee_taker_a fee_taker_b slip_bps_a slip_bps_b
      interval_h : ℚ) (mode : String) (keep_margin_bp : ℚ) :
    Except PyErr EvalResult := do
  let fr_a_4h ← fetch_fr_4h env exA symbol mode
  let fr_b_4h ← fetch_fr_4h env exB symbol mode
  let high_fr_ex := if fr_a_4h ≥ fr_b_4h then exA else exB
  let low_fr_ex := if fr_a_4h ≥ fr_b_4h then exB else exA
  let fr_high_4h := if fr_a_4h ≥ fr_b_4h then fr_a_4h else fr_b_4h
  let fr_low_4h := if fr_a_4h ≥ fr_b_4h then fr_b_4h else fr_a_4h
  let fee_high := if fr_a_4h ≥ fr_b_4h then fee_taker_a else fee_taker_b
  let fee_low := if fr_a_4h ≥ fr_b_4h then fee_taker_b else fee_taker_a
  let slip_high := if fr_a_4h ≥ fr_b_4h then slip_bps_a else slip_bps_b
  let slip_low := if fr_a_4h ≥ fr_b_4h then slip_bps_b else slip_bps_a
  let legs ← candidate_legs env symbol high_fr_ex low_fr_ex
      side_notional_usdt fee_high fee_low slip_high slip_low
  eval_finish symbol high_fr_ex low_fr_ex fr_high_4h fr_low_4h legs.1 legs.2
    interval_h keep_margin_bp

/-- Python `x or d` for an optional float argument: `None` and `0.0` are
both falsy, so an absent override and an explicit `0.0` override both fall
back to the default. -/
def pyOr (v : Option ℚ) (d : ℚ) : ℚ :=
  match v with
  | none => d
  | some x => if x = 0 then d else x

/-- `make_position_from_eval` (lines 306-334). -/
def make_position_from_eval (ev : EvalResult)
    (entry_ts next_funding_ts leverage : ℚ)
    (fee_taker_high fee_taker_low slip_bps_high slip_bps_low : Option ℚ) :
    Position :=
  let leg_high := Leg.mk ev.high_fr_ex ev.symbol "short" (ev.notional_total / 2)
    0 0 (pyOr fee_taker_high (55 / 100000)) (pyOr slip_bps_high 6)
  let leg_low := Leg.mk ev.low_fr_ex ev.symbol "long" (ev.notional_total / 2)
    0 0 (pyOr fee_taker_low (60 / 100000)) (pyOr slip_bps_low 6)
  Position.mk leg_high leg_low entry_ts ev.diff_4h leverage next_funding_ts
    ev.interval_h ev.fees_total_usdt ev.entry_basis_cost_usdt ev.notional_total
    ev.be_per_int ev.n_min

/-- `evaluate_position_now` (lines 340-407) with an explicit `now_ts`
(the source defaults it to the wall clock, an external input). -/
def evaluate_position_now (env : Env) (position : Position) (mode : String)
    (now_ts keep_margin_bp : ℚ) : Except PyErr PositionStatus := do
  let sym := position.leg_a.symbol
  let exa := position.leg_a.exchange
  let exb := position.leg_b.exchange
  let fr_a_4h_now ← fetch_fr_4h env exa sym mode
  let fr_b_4h_now ← fetch_fr_4h env exb sym mode
  let short_ex := if fr_a_4h_now ≥ fr_b_4h_now then exa else exb
  let long_ex := if fr_a_4h_now ≥ fr_b_4h_now then exb else exa
  let fr_high_4h_now := if fr_a_4h_now ≥ fr_b_4h_now then fr_a_4h_now else fr_b_4h_now
  let fr_low_4h_now := if fr_a_4h_now ≥ fr_b_4h_now then fr_b_4h_now else fr_a_4h_now
  let diff_4h_now := |fr_high_4h_now - fr_low_4h_now|
  let diff_per_int_now := diff_4h_now * (position.interval_h / 4)
  let notional_total := position.notional_total
  let fees_total := position.fees_total_usdt
  let basis_cost := position.entry_basis_cost_usdt
  let be_4h_now := be_fr_4h (fees_total + basis_cost) notional_total
  let be_per_int_now := be_4h_now * (position.interval_h / 4)
  let am ← pydiv 24 position.interval_h
  let annual_mult := am * 365
  let apr_gross_now_pct := max 0 (diff_per_int_now * annual_mult * 100)
  let apr_net_now_pct := max 0 ((diff_per_int_now - be_per_int_now) * annual_mult * 100)
  if diff_per_int_now > 0 then
    let pre ← pydiv (fees_total + basis_cost) (notional_total * diff_per_int_now)
    let n_min_now := Int.ceil pre
    let est_pnl := estimate_pnl_now notional_total diff_4h_now position.entry_ts
      now_ts fees_total basis_cost
    let diff_per_int_entry := position.entry_diff_4h * (position.interval_h / 4)
    let apr_gross_entry_pct := max 0 (diff_per_int_entry * annual_mult * 100)
    let n_min_entry := position.entry_n_min
    let diff_delta_bp := (diff_per_int_now - diff_per_int_entry) * 10000
    let apr_gross_delta_pct := apr_gross_now_pct - apr_gross_entry_pct
    let n_min_delta := n_min_now - n_min_entry
    pure (PositionStatus.mk sym short_ex long_ex position.interval_h
      diff_per_int_now diff_4h_now be_per_int_now be_4h_now apr_gross_now_pct
      apr_net_now_pct n_min_now diff_per_int_entry apr_gross_entry_pct
      n_min_entry diff_delta_bp apr_gross_delta_pct n_min_delta est_pnl
      position.entry_ts now_ts basis_cost)
  else
    throw PyErr.overflowError

/-! Liquidity rank scorer: the pure scoring core of
`evaluate_liquidity_and_rank` (fr_arbitrage_discord_bot.py lines 187-262)
as a function of the fetched metrics (24h volume per leg, best ask/bid
notional per leg, price gap in bps, current APR). -/

/-- `tier_score` (line 230-231): 4/3/2/1/0 by descending thresholds. -/
def tier_score (x t0 t1 t2 t3 : ℚ) : ℤ :=
  if x ≥ t0 then 4 else if x ≥ t1 then 3 else if x ≥ t2 then 2
  else if x ≥ t3 then 1 else 0

/-- The `GAP_BPS_PENALTY` loop (lines 194, 236-240): first threshold the
gap exceeds wins (break), otherwise zero. -/
def gapLoop : List (ℚ × ℤ) → ℚ → ℤ
  | [], _ => 0
  | (th, pen) :: rest, gap => if gap > th then pen else gapLoop rest gap

/-- The `APR_BONUS` loop (lines 195, 242-248): break on the first
threshold that `apr` reaches; the `elif apr < 80` arm assigns `-2` without
breaking, so it only survives the loop when no threshold ever matches. -/
def aprLoop : List (ℚ × ℤ) → ℚ → ℤ → ℤ
  | [], _, acc => acc
  | (th, adj) :: rest, apr, acc =>
      if apr ≥ th then adj
      else if apr < 80 then aprLoop rest apr (-2)
      else aprLoop rest apr acc

/-- The rank-letter lookup from the total score (line 251). -/
def rank_of_total (total : ℤ) : String :=
  if total ≥ 7 then "S" else if total ≥ 5 then "A" else if total ≥ 3 then "B"
  else if total ≥ 1 then "C" else "D"

/-- Pure scoring core of `evaluate_liquidity_and_rank` (lines 192-251):
total score and rank letter from the fetched metrics. -/
def evaluate_liquidity_and_rank (vol_s vol_l ask_s bid_s ask_l bid_l
    gap_bps apr : ℚ) : ℤ × String :=
  let vol_score := min (tier_score vol_s 2000000000 1000000000 300000000 100000000)
    (tier_score vol_l 2000000000 1000000000 300000000 100000000)
  let bbo_score := min (tier_score (min ask_s bid_s) 1000000 500000 200000 100000)
    (tier_score (min ask_l bid_l) 1000000 500000 200000 100000)
  let gap_pen := gapLoop [(15, -2), (5, -1)] gap_bps
  let apr_adj := aprLoop [(200, 1), (100, 0), (80, -1), (0, -2)] apr 0
  let total := vol_score + bbo_score + gap_pen + apr_adj
  (total, rank_of_total total)

/-- Ordinal value of a rank letter, for stating rank monotonicity
(S strongest, D weakest). -/
def rank_order (r : String) : ℤ :=
  if r = "S" then 4 else if r = "A" then 3 else if r = "B" then 2
  else if r = "C" then 1 else 0

/-! Reduction lemmas for the `Except` embedding. -/

lemma except_bind_ok {α β : Type} (a : α) (f : α → Except PyErr β) :
    (Except.ok a >>= f) = f a := rfl

lemma except_bind_error {α β : Type} (e : PyErr) (f : α → Except PyErr β) :
    ((Except.error e : Except PyErr α) >>= f) = Except.error e := rfl

lemma except_pure {α : Type} (a : α) : (pure a : Except PyErr α) = Except.ok a := rfl

lemma except_throw {α : Type} (e : PyErr) :
    (throw e : Except PyErr α) = Except.error e := rfl

lemma bind_ite {α β : Type} (c : Prop) [Decidable c] (x y : Except PyErr α)
    (f : α → Except PyErr β) :
    ((if c then x else y) >>= f) = if c then x >>= f else y >>= f := by
  split <;> rfl

lemma pydiv_of_ne (a b : ℚ) (h : b ≠ 0) : pydiv a b = Except.ok (a / b) := by
  simp [pydiv, h]

lemma pydiv_zero_right (a : ℚ) :
    pydiv a 0 = Except.error PyErr.zeroDivisionError := by
  simp [pydiv]

lemma fetch_fr_4h_mem (env : Env) (exchange symbol mode : String)
    (h : exchange ∈ env.registered) :
    fetch_fr_4h env exchange symbol mode = Except.ok (env.fr4h exchange symbol mode) := by
  simp [fetch_fr_4h, h]

lemma fetch_fr_4h_not_mem (env : Env) (exchange symbol mode : String)
    (h : exchange ∉ env.registered) :
    fetch_fr_4h env exchange symbol mode = Except.error PyErr.valueError := by
  simp [fetch_fr_4h, h]

lemma fetch_mark_price_mem (env : Env) (exchange symbol : String)
    (h : exchange ∈ env.registered) :
    fetch_mark_price env exchange symbol = Except.ok (env.markPrice exchange symbol) := by
  simp [fetch_mark_price, h]

/-- The short leg `candidate_legs` builds when nothing raises. -/
def builtLegH (env : Env) (symbol high_fr_ex : String)
    (side_notional_usdt fee_high slip_high : ℚ) : Leg :=
  Leg.mk high_fr_ex symbol "short"
    (env.roundQty high_fr_ex symbol
        (max 0 (side_notional_usdt / env.markPrice high_fr_ex symbol))
      * env.markPrice high_fr_ex symbol)
    (env.roundQty high_fr_ex symbol
      (max 0 (side_notional_usdt / env.markPrice high_fr_ex symbol)))
    (env.markPrice high_fr_ex symbol) fee_high slip_high

/-- The long leg `candidate_legs` builds when nothing raises. -/
def builtLegL (env : Env) (symbol low_fr_ex : String)
    (side_notional_usdt fee_low slip_low : ℚ) : Leg :=
  Leg.mk low_fr_ex symbol "long"
    (env.roundQty low_fr_ex symbol
        (max 0 (side_notional_usdt / env.markPrice low_fr_ex symbol))
      * env.markPrice low_fr_ex symbol)
    (env.roundQty low_fr_ex symbol
      (max 0 (side_notional_usdt / env.markPrice low_fr_ex symbol)))
    (env.markPrice low_fr_ex symbol) fee_low slip_low

lemma candidate_legs_eq (env : Env) (sym hx lx : String) (sn fh fl sh sl : ℚ)
    (h1 : hx ∈ env.registered) (h2 : lx ∈ env.registered)
    (h3 : env.markPrice hx sym ≠ 0) (h4 : env.markPrice lx sym ≠ 0) :
    candidate_legs env sym hx lx sn fh fl sh sl =
      Except.ok (builtLegH env sym hx sn fh sh, builtLegL env sym lx sn fl sl) := by
  simp only [candidate_legs, fetch_mark_price_mem env hx sym h1,
    fetch_mark_price_mem env lx sym h2, except_bind_ok,
    pydiv_of_ne _ _ h3, pydiv_of_ne _ _ h4, except_pure, builtLegH, builtLegL]

lemma candidate_legs_ok (env : Env) (sym hx lx : String) (sn fh fl sh sl : ℚ)
    (lh ll : Leg)
    (h : candidate_legs env sym hx lx sn fh fl sh sl = Except.ok (lh, ll)) :
    lh = builtLegH env sym hx sn fh sh ∧ ll = builtLegL env sym lx sn fl sl := by
  by_cases h1 : hx ∈ env.registered
  · by_cases h2 : lx ∈ env.registered
    · by_cases h3 : env.markPrice hx sym = 0
      · rw [candidate_legs] at h
        rw [fetch_mark_price_mem env hx sym h1, except_bind_ok] at h
        rw [fetch_mark_price_mem env lx sym h2, except_bind_ok] at h
        rw [show pydiv sn (env.markPrice hx sym) =
              Except.error PyErr.zeroDivisionError by rw [h3]; exact pydiv_zero_right sn,
          except_bind_error] at h
        exact absurd h (by simp)
      · by_cases h4 : env.markPrice lx sym = 0
        · rw [candidate_legs] at h
          rw [fetch_mark_price_mem env hx sym h1, except_bind_ok] at h
          rw [fetch_mark_price_mem env lx sym h2, except_bind_ok] at h
          rw [pydiv_of_ne _ _ h3, except_bind_ok] at h
          rw [show pydiv sn (env.markPrice lx sym) =
                Except.error PyErr.zeroDivisionError by rw [h4]; exact pydiv_zero_right sn,
            except_bind_error] at h
          exact absurd h (by simp)
        · rw [candidate_legs_eq env sym hx lx sn fh fl sh sl h1 h2 h3 h4] at h
          simp only [Except.ok.injEq, Prod.mk.injEq] at h
          exact ⟨h.1.symm, h.2.symm⟩
    · rw [candidate_legs] at h
      rw [fetch_mark_price_mem env hx sym h1, except_bind_ok] at h
      rw [show fetch_mark_price env lx sym = Except.error PyErr.valueError by
          simp [fetch_mark_price, h2], except_bind_error] at h
      exact absurd h (by simp)
  · rw [candidate_legs] at h
    rw [show fetch_mark_price env hx sym = Except.error PyErr.valueError by
        simp [fetch_mark_price, h1], except_bind_error] at h
    exact absurd h (by simp)

/-! Basic sign facts about the cost model. -/

lemma be_fr_4h_nonneg (f n : ℚ) (hf : 0 ≤ f) : 0 ≤ be_fr_4h f n := by
  unfold be_fr_4h
  split
  · norm_num
  · exact div_nonneg hf (le_of_lt (lt_of_not_le (by assumption)))

lemma estimate_entry_basis_cost_usdt_nonneg (ps pl qs ql ss sl : ℚ) :
    0 ≤ estimate_entry_basis_cost_usdt ps pl qs ql ss sl := by
  unfold estimate_entry_basis_cost_usdt
  exact mul_nonneg (le_max_left 0 _) (le_max_left 0 _)

lemma total_fees_with_slippage_nonneg (la lb : Leg)
    (h1 : 0 ≤ la.notional) (h2 : 0 ≤ lb.notional)
    (h3 : 0 ≤ la.fee_rate_taker) (h4 : 0 ≤ lb.fee_rate_taker)
    (h5 : 0 ≤ la.vwap_slippage_est_bps) (h6 : 0 ≤ lb.vwap_slippage_est_bps) :
    0 ≤ total_fees_with_slippage la lb := by
  unfold total_fees_with_slippage est_vwap_slippage_cost
  have e1 : 0 ≤ la.notional * la.fee_rate_taker := mul_nonneg h1 h3
  have e2 : 0 ≤ lb.notional * lb.fee_rate_taker := mul_nonneg h2 h4
  have e3 : 0 ≤ la.notional * (la.vwap_slippage_est_bps / 10000) :=
    mul_nonneg h1 (by positivity)
  have e4 : 0 ≤ lb.notional * (lb.vwap_slippage_est_bps / 10000) :=
    mul_nonneg h2 (by positivity)
  nlinarith

/-- Core inequality behind C7: a successful `eval_finish` on legs with
non-negative notional, fee and slippage and a positive interval reports
`apr_net_pct ≤ apr_gross_pct`. -/
lemma eval_finish_net_le_gross (sym hx lx : String) (frh frl : ℚ)
    (lh ll : Leg) (iv km : ℚ) (hiv : 0 < iv)
    (h1 : 0 ≤ lh.notional) (h2 : 0 ≤ ll.notional)
    (h3 : 0 ≤ lh.fee_rate_taker) (h4 : 0 ≤ ll.fee_rate_taker)
    (h5 : 0 ≤ lh.vwap_slippage_est_bps) (h6 : 0 ≤ ll.vwap_slippage_est_bps)
    (r : EvalResult)
    (h : eval_finish sym hx lx frh frl lh ll iv km = Except.ok r) :
    r.apr_net_pct ≤ r.apr_gross_pct := by
  have hiv0 : iv ≠ 0 := ne_of_gt hiv
  rw [eval_finish, pydiv_of_ne 24 iv hiv0, except_bind_ok] at h
  set F := total_fees_with_slippage lh ll with hF
  set B := estimate_entry_basis_cost_usdt lh.mark_price ll.mark_price lh.qty
    ll.qty lh.vwap_slippage_est_bps ll.vwap_slippage_est_bps with hB
  set N := lh.notional + ll.notional with hN
  set d := |frh - frl| * (iv / 4) with hd
  set b := be_fr_4h (F + B) N * (iv / 4) with hb
  by_cases hpos : d > 0
  · rw [if_pos hpos] at h
    by_cases hz : N * d = 0
    · rw [show pydiv (F + B) (N * d) = Except.error PyErr.zeroDivisionError by
          rw [hz]; exact pydiv_zero_right _, except_bind_error] at h
      exact absurd h (by simp)
    · rw [pydiv_of_ne _ _ hz, except_bind_ok, except_pure] at h
      have hr := h.symm
      rw [Except.ok.injEq] at hr
      subst hr
      show max 0 ((d - b) * ((24 / iv) * 365) * 100)
          ≤ max 0 (d * ((24 / iv) * 365) * 100)
      have hFB : 0 ≤ F + B := by
        have := total_fees_with_slippage_nonneg lh ll h1 h2 h3 h4 h5 h6
        have := estimate_entry_basis_cost_usdt_nonneg lh.mark_price ll.mark_price
          lh.qty ll.qty lh.vwap_slippage_est_bps ll.vwap_slippage_est_bps
        rw [hF, hB]; linarith
      have hbn : 0 ≤ b := by
        rw [hb]
        exact mul_nonneg (be_fr_4h_nonneg _ _ hFB) (by positivity)
      have hM : 0 < (24 / iv) * 365 := by positivity
      have key : (d - b) * ((24 / iv) * 365) * 100 ≤ d * ((24 / iv) * 365) * 100 := by
        nlinarith
      exact max_le_max le_rfl key
  · rw [if_neg hpos, except_throw] at h
    exact absurd h (by simp)

/-- `entryBasisCost` as the claimed min-formula whenever both base
quantities are non-negative (the inner clamp `max 0` is then inert). -/
lemma basis_eq_min_of_nonneg (ps pl qs ql ss sl : ℚ) (hqs : 0 ≤ qs) (hql : 0 ≤ ql) :
    estimate_entry_basis_cost_usdt ps pl qs ql ss sl
      = max 0 (pl * (1 + sl / 10000) - ps * (1 - ss / 10000)) * min qs ql := by
  unfold estimate_entry_basis_cost_usdt
  rw [max_eq_right (le_min hqs hql)]

/-! Concrete environments and records used for explicit evaluations. -/

/-- Two registered exchanges quoting the same 4h funding rate. -/
def envEq : Env := Env.mk ["Bybit", "Bitget"]
  (fun _ _ _ => 5 / 10000) (fun _ _ => 30000) (fun _ _ q => q)

/-- Two registered exchanges with a 5bp 4h funding-rate differential,
unit mark prices and clamping lot rounding. -/
def envD : Env := Env.mk ["Bybit", "Bitget"]
  (fun ex _ _ => if ex = "Bybit" then 6 / 10000 else 1 / 10000)
  (fun _ _ => 1) (fun _ _ q => max 0 q)

/-- Distinct mark prices and floor-to-0.001 lot rounding (a realistic
`round_qty_to_lot`). -/
def envR : Env := Env.mk ["Bybit", "Bitget"]
  (fun ex _ _ => if ex = "Bybit" then 6 / 10000 else 1 / 10000)
  (fun ex _ => if ex = "Bybit" then 30000 else 30003)
  (fun _ _ q => (Int.floor (q * 1000) : ℚ) / 1000)

/-- Identity lot rounding, unit prices. -/
def env4 : Env := Env.mk ["Bybit", "Bitget"]
  (fun ex _ _ => if ex = "Bybit" then 6 / 10000 else 1 / 10000)
  (fun _ _ => 1) (fun _ _ q => q)

/-- A 50bp-vs-0 funding differential, unit prices, clamping rounding. -/
def envW : Env := Env.mk ["Bybit", "Bitget"]
  (fun ex _ _ => if ex = "Bybit" then 1 / 2 else 0)
  (fun _ _ => 1) (fun _ _ q => max 0 q)

/-- A position on an 8-hour settlement interval entered at time 0 with
1 USDT of fees and 0.5 USDT of basis cost on 100 USDT total notional. -/
def pos8 : Position := Position.mk
  (Leg.mk "Bybit" "BTC" "short" 50 1 1 0 0)
  (Leg.mk "Bitget" "BTC" "long" 50 1 1 0 0)
  0 (5 / 10000) 1 0 8 1 (1 / 2) 100 0 0

/-- A cost-free position on a 4-hour interval entered at time 0. -/
def posW : Position := Position.mk
  (Leg.mk "Bybit" "BTC" "short" 1 1 1 0 0)
  (Leg.mk "Bitget" "BTC" "long" 1 1 1 0 0)
  0 (1 / 2) 1 0 4 0 0 2 0 0

/-- The status `evaluate_position_now envW posW "predicted" 0 5` produces. -/
def stW : PositionStatus := PositionStatus.mk "BTC" "Bybit" "Bitget" 4 (1 / 2)
  (1 / 2) 0 0 109500 109500 0 (1 / 2) 109500 0 0 0 0 0 0 0 0

/-- The result `evaluate_candidate envW "BTC" "Bybit" "Bitget" 1 0 0 0 0 4
"predicted" 5` produces. -/
def rW : EvalResult := EvalResult.mk "BTC" "Bybit" "Bitget" 4 (1 / 2) (1 / 2)
  0 0 109500 109500 0 2 0 0 "keep"

/-- Sample legs with non-negative notional, fees and slippage. -/
def legW1 : Leg := Leg.mk "Bybit" "BTC" "short" 100 1 1 (55 / 100000) 6

/-- Second sample leg. -/
def legW2 : Leg := Leg.mk "Bitget" "BTC" "long" 100 1 1 (60 / 100000) 6

/-! Claim theorems. -/

/-- C1: at equal 4h funding rates the claim expects `diff_4h == 0`,
`apr_gross_pct == 0`, `n_min == +infinity` and no exception, but the
source line `n_min = ... else int(inf)` raises `OverflowError` in Python,
so `evaluate_candidate` raises instead of returning a sentinel result.
The zero-notional half of the claim does hold: `be_fr_4h` returns the
`9e9` sentinel.  This theorem evaluates the code at the failing input. -/
theorem c1_equal_fr_overflow :
    evaluate_candidate envEq "BTCUSDT" "Bybit" "Bitget" 50 (55 / 100000)
        (60 / 100000) 6 6 4 "predicted" 5 = Except.error PyErr.overflowError
      ∧ be_fr_4h 3 0 = 9000000000 := by
  constructor
  · norm_num [evaluate_candidate, fetch_fr_4h, fetch_mark_price, candidate_legs,
      eval_finish, pydiv, envEq, total_fees_with_slippage, est_vwap_slippage_cost,
      estimate_entry_basis_cost_usdt, be_fr_4h, decisionOf, builtLegH, builtLegL,
      max_def, min_def, except_bind_ok, except_bind_error, except_pure,
      except_throw, bind_ite]
  · norm_num [be_fr_4h]

/-- C3: with a non-negative keep threshold `t`, the classifier returns
keep iff `margin_bps ≥ t`, watch iff `0 ≤ margin_bps < t`, close iff
`margin_bps < 0`. -/
theorem c3_decision_boundaries (m t : ℚ) (ht : 0 ≤ t) :
    (decisionOf m t = "keep" ↔ t ≤ m)
      ∧ (decisionOf m t = "watch" ↔ 0 ≤ m ∧ m < t)
      ∧ (decisionOf m t = "close" ↔ m < 0) := by
  unfold decisionOf
  split_ifs with hk hw
  · exact ⟨⟨fun _ => hk, fun _ => rfl⟩,
      ⟨fun hh => absurd hh (by decide), fun hh => absurd hk (not_le.mpr hh.2)⟩,
      ⟨fun hh => absurd hh (by decide),
        fun hneg => absurd (ht.trans hk) (not_le.mpr hneg)⟩⟩
  · exact ⟨⟨fun hh => absurd hh (by decide), fun hle => absurd hle hk⟩,
      ⟨fun _ => ⟨hw, not_le.mp hk⟩, fun _ => rfl⟩,
      ⟨fun hh => absurd hh (by decide), fun hneg => absurd hw (not_le.mpr hneg)⟩⟩
  · exact ⟨⟨fun hh => absurd hh (by decide), fun hle => absurd hle hk⟩,
      ⟨fun hh => absurd hh (by decide), fun hh => absurd hh.1 hw⟩,
      ⟨fun _ => not_le.mp hw, fun _ => rfl⟩⟩

/-- C3 witness: with the default 5bp threshold, a margin of exactly 5
is keep, 4.999 is watch, -0.001 is close. -/
theorem c3_witness :
    decisionOf 5 5 = "keep" ∧ decisionOf (4999 / 1000) 5 = "watch"
      ∧ decisionOf (-1 / 1000) 5 = "close" :=
  ⟨(c3_decision_boundaries 5 5 (by norm_num)).1.mpr (by norm_num),
    (c3_decision_boundaries (4999 / 1000) 5 (by norm_num)).2.1.mpr
      ⟨by norm_num, by norm_num⟩,
    (c3_decision_boundaries (-1 / 1000) 5 (by norm_num)).2.2.mpr (by norm_num)⟩

/-- C6 counterexample: with both base quantities negative, the code
clamps the matched quantity to zero and returns 0, while the claimed
formula `max(0, gap) × min(qtyShort, qtyLong)` is negative at the same
input, so the two disagree. -/
theorem c6_counterexample :
    estimate_entry_basis_cost_usdt 1 2 (-1) (-1) 0 0 = 0
      ∧ max 0 (2 * (1 + 0 / 10000) - 1 * (1 - 0 / 10000)) * min (-1 : ℚ) (-1) ≠ 0 := by
  constructor
  · norm_num [estimate_entry_basis_cost_usdt, max_def, min_def]
  · norm_num [max_def, min_def]

/-- C6 (amended): `entryBasisCost` equals
`max(0, executedBuy − executedSell) × max(0, min(qtyShort, qtyLong))`;
with non-negative quantities this is the claimed min-formula, a
non-positive execution-price gap always costs zero, and a zero quantity
on either side always costs zero. -/
theorem c6_basis_cost_formula (ps pl qs ql ss sl : ℚ) :
    estimate_entry_basis_cost_usdt ps pl qs ql ss sl
        = max 0 (pl * (1 + sl / 10000) - ps * (1 - ss / 10000)) * max 0 (min qs ql)
      ∧ (0 ≤ qs → 0 ≤ ql →
          estimate_entry_basis_cost_usdt ps pl qs ql ss sl
            = max 0 (pl * (1 + sl / 10000) - ps * (1 - ss / 10000)) * min qs ql)
      ∧ (pl * (1 + sl / 10000) ≤ ps * (1 - ss / 10000) →
          estimate_entry_basis_cost_usdt ps pl qs ql ss sl = 0)
      ∧ ((qs = 0 ∨ ql = 0) →
          estimate_entry_basis_cost_usdt ps pl qs ql ss sl = 0) := by
  have h0 : estimate_entry_basis_cost_usdt ps pl qs ql ss sl
      = max 0 (pl * (1 + sl / 10000) - ps * (1 - ss / 10000)) * max 0 (min qs ql) := rfl
  refine ⟨h0, fun hqs hql => basis_eq_min_of_nonneg ps pl qs ql ss sl hqs hql,
    fun hgap => ?_, fun hq => ?_⟩
  · rw [h0, max_eq_left (by linarith : pl * (1 + sl / 10000) - ps * (1 - ss / 10000) ≤ 0),
      zero_mul]
  · have hmin : min qs ql ≤ 0 := by
      rcases hq with hh | hh
      · exact hh ▸ min_le_left qs ql
      · exact hh ▸ min_le_right qs ql
    rw [h0, max_eq_left hmin, mul_zero]

/-- C6 witness: the amended formula evaluated at a concrete favorable
crossing with matched quantity 3. -/
theorem c6_witness :
    estimate_entry_basis_cost_usdt 1 2 3 4 0 0
      = max 0 (2 * (1 + 0 / 10000) - 1 * (1 - 0 / 10000)) * min (3 : ℚ) 4 :=
  (c6_basis_cost_formula 1 2 3 4 0 0).2.1 (by norm_num) (by norm_num)

/-- C8: `total_fees_with_slippage` is exactly the sum of the round-trip
(×2) taker fee on each leg's notional plus the round-trip (×2) VWAP
slippage cost `notional × slippage_bps / 10000` on each leg, and is
non-negative for non-negative inputs. -/
theorem c8_total_fees (la lb : Leg)
    (h1 : 0 ≤ la.notional) (h2 : 0 ≤ lb.notional)
    (h3 : 0 ≤ la.fee_rate_taker) (h4 : 0 ≤ lb.fee_rate_taker)
    (h5 : 0 ≤ la.vwap_slippage_est_bps) (h6 : 0 ≤ lb.vwap_slippage_est_bps) :
    total_fees_with_slippage la lb
        = la.notional * la.fee_rate_taker * 2 + lb.notional * lb.fee_rate_taker * 2
          + la.notional * (la.vwap_slippage_est_bps / 10000) * 2
          + lb.notional * (lb.vwap_slippage_est_bps / 10000) * 2
      ∧ 0 ≤ total_fees_with_slippage la lb := by
  constructor
  · unfold total_fees_with_slippage est_vwap_slippage_cost
    ring
  · exact total_fees_with_slippage_nonneg la lb h1 h2 h3 h4 h5 h6

/-- C8 witness: the fee formula at two concrete legs. -/
theorem c8_witness :
    total_fees_with_slippage legW1 legW2
        = legW1.notional * legW1.fee_rate_taker * 2
          + legW2.notional * legW2.fee_rate_taker * 2
          + legW1.notional * (legW1.vwap_slippage_est_bps / 10000) * 2
          + legW2.notional * (legW2.vwap_slippage_est_bps / 10000) * 2
      ∧ 0 ≤ total_fees_with_slippage legW1 legW2 :=
  c8_total_fees legW1 legW2 (by norm_num [legW1]) (by norm_num [legW2])
    (by norm_num [legW1]) (by norm_num [legW2]) (by norm_num [legW1])
    (by norm_num [legW2])

/-- C10: in `make_position_from_eval` an explicit override of `0` for any
fee or slippage parameter is indistinguishable from an absent override —
the Python `or` idiom replaces both `None` and `0.0` by the fallback
defaults 0.00055/0.00060 taker fee and 6.0 bps slippage, so a zero-fee or
zero-slippage leg cannot be expressed through the overrides. -/
theorem c10_zero_override_is_default (ev : EvalResult)
    (entry_ts next_funding_ts leverage : ℚ) :
    make_position_from_eval ev entry_ts next_funding_ts leverage
        (some 0) (some 0) (some 0) (some 0)
        = make_position_from_eval ev entry_ts next_funding_ts leverage
          none none none none
      ∧ (make_position_from_eval ev entry_ts next_funding_ts leverage
          (some 0) (some 0) (some 0) (some 0)).leg_a.fee_rate_taker = 55 / 100000
      ∧ (make_position_from_eval ev entry_ts next_funding_ts leverage
          (some 0) (some 0) (some 0) (some 0)).leg_b.fee_rate_taker = 60 / 100000
      ∧ (make_position_from_eval ev entry_ts next_funding_ts leverage
          (some 0) (some 0) (some 0) (some 0)).leg_a.vwap_slippage_est_bps = 6
      ∧ (make_position_from_eval ev entry_ts next_funding_ts leverage
          (some 0) (some 0) (some 0) (some 0)).leg_b.vwap_slippage_est_bps = 6 := by
  refine ⟨?_, ?_, ?_, ?_, ?_⟩ <;>
    simp [make_position_from_eval, pyOr]

/-- C2 counterexample: for the concrete 8h-interval position `pos8` at a
current 4h differential of 5bp and 8 elapsed hours, the code reports an
estimated PnL of -7/5 USDT (it counts elapsed hours / 4, the 4h-period
count), while the claimed formula with `periodsElapsed` divided by the
position's `interval_h` = 8 gives -29/20 USDT. -/
theorem c2_counterexample :
    (evaluate_position_now envD pos8 "predicted" 28800 5).map
        (fun st => st.est_pnl_usdt) = Except.ok (-7 / 5)
      ∧ (-7 / 5 : ℚ) ≠ pos8.notional_total * (5 / 10000)
          * max 0 ((28800 - pos8.entry_ts) / 3600 / pos8.interval_h)
          - (pos8.fees_total_usdt + pos8.entry_basis_cost_usdt) := by
  have hA : ("Bybit" : String) ∈ envD.registered := by simp [envD]
  have hB : ("Bitget" : String) ∈ envD.registered := by simp [envD]
  have f1 : envD.fr4h "Bybit" "BTC" "predicted" = 6 / 10000 := by simp [envD]
  have f2 : envD.fr4h "Bitget" "BTC" "predicted" = 1 / 10000 := by simp [envD]
  constructor
  · simp only [evaluate_position_now, pos8]
    rw [fetch_fr_4h_mem envD "Bybit" "BTC" "predicted" hA, except_bind_ok]
    rw [fetch_fr_4h_mem envD "Bitget" "BTC" "predicted" hB, except_bind_ok]
    rw [f1, f2]
    norm_num [pydiv, be_fr_4h, estimate_pnl_now, max_def, min_def,
      except_bind_ok, except_bind_error, except_pure, except_throw, bind_ite,
      Except.map, abs_of_nonneg]
  · norm_num [pos8, max_def]

/-- C4 counterexample: with floor-to-lot rounding and mark prices 30000
vs 30003, `evaluate_candidate`'s leg construction produces notionals 30
and 30.003 — the two legs of a candidate are not equal-notional by
construction. -/
theorem c4_counterexample :
    (candidate_legs envR "BTC" "Bybit" "Bitget" 50 0 0 0 0).map
        (fun p => (p.1.notional, p.2.notional)) = Except.ok (30, 30003 / 1000)
      ∧ (30 : ℚ) ≠ 30003 / 1000 := by
  have hs : ¬("Bitget" : String) = "Bybit" := by decide
  have hs2 : ¬("Bybit" : String) = "Bitget" := by decide
  constructor
  · norm_num [candidate_legs, fetch_mark_price, pydiv, envR, builtLegH, builtLegL,
      max_def, except_bind_ok, except_bind_error, except_pure, bind_ite,
      Except.map, hs, hs2]
  · norm_num

/-- C5 counterexample: a negative settlement interval is not rejected
up front with the registry-style `ValueError` used for unknown exchanges;
evaluation runs through fetches, leg construction, costs and APRs and
only dies at the `int(inf)` conversion with an `OverflowError`. -/
theorem c5_counterexample :
    evaluate_candidate envD "BTC" "Bybit" "Bitget" 1 0 0 0 0 (-4) "p" 5
        = Except.error PyErr.overflowError
      ∧ (Except.error PyErr.overflowError : Except PyErr EvalResult)
        ≠ Except.error PyErr.valueError := by
  have hs : ¬("Bitget" : String) = "Bybit" := by decide
  have hs2 : ¬("Bybit" : String) = "Bitget" := by decide
  constructor
  · norm_num [evaluate_candidate, fetch_fr_4h, fetch_mark_price, candidate_legs,
      eval_finish, pydiv, envD, total_fees_with_slippage, est_vwap_slippage_cost,
      estimate_entry_basis_cost_usdt, be_fr_4h, decisionOf, builtLegH, builtLegL,
      max_def, min_def, except_bind_ok, except_bind_error, except_pure,
      except_throw, bind_ite, hs, hs2]
  · simp

/-- C2 (amended): a successful `evaluate_position_now` reports
`estimatedPnL = notionalTotal × currentDiff4h × periodsElapsed −
(entryFees + entryBasisCost)` where `periodsElapsed =
max(0, secondsBetween(entry, now) / 3600 / 4)` — elapsed 4-hour periods,
with the divisor 4 hard-coded regardless of the position's settlement
interval (the differential is already 4h-normalized); and re-evaluating
at `now == entryTimestamp` yields exactly `−(entryFees + entryBasisCost)`. -/
theorem c2_pnl_formula (env : Env) (pos : Position) (mode : String)
    (now_ts km : ℚ) (st : PositionStatus)
    (hnow : pos.entry_ts ≤ now_ts)
    (h : evaluate_position_now env pos mode now_ts km = Except.ok st) :
    st.est_pnl_usdt = pos.notional_total * st.diff_4h_now
        * max 0 ((now_ts - pos.entry_ts) / 3600 / 4)
        - (pos.fees_total_usdt + pos.entry_basis_cost_usdt)
      ∧ (now_ts = pos.entry_ts →
        st.est_pnl_usdt = -(pos.fees_total_usdt + pos.entry_basis_cost_usdt)) := by
  simp only [evaluate_position_now] at h
  by_cases hA : pos.leg_a.exchange ∈ env.registered
  · rw [fetch_fr_4h_mem env pos.leg_a.exchange pos.leg_a.symbol mode hA,
      except_bind_ok] at h
    by_cases hB : pos.leg_b.exchange ∈ env.registered
    · rw [fetch_fr_4h_mem env pos.leg_b.exchange pos.leg_a.symbol mode hB,
        except_bind_ok] at h
      simp only [pydiv, bind_ite, except_bind_ok, except_bind_error, except_pure,
        except_throw] at h
      split_ifs at h <;> simp only [Except.ok.injEq, reduceCtorEq] at h
      all_goals subst h
      all_goals refine ⟨rfl, fun h0 => ?_⟩
      all_goals subst h0
      all_goals simp [estimate_pnl_now]
    · rw [fetch_fr_4h_not_mem env pos.leg_b.exchange pos.leg_a.symbol mode hB,
        except_bind_error] at h
      exact absurd h (by simp)
  · rw [fetch_fr_4h_not_mem env pos.leg_a.exchange pos.leg_a.symbol mode hA,
      except_bind_error] at h
    exact absurd h (by simp)

/-- C2 witness: the amended PnL formula at a concrete cost-free position
re-evaluated at its own entry timestamp. -/
theorem c2_witness :
    (stW.est_pnl_usdt = posW.notional_total * stW.diff_4h_now
        * max 0 ((0 - posW.entry_ts) / 3600 / 4)
        - (posW.fees_total_usdt + posW.entry_basis_cost_usdt))
      ∧ ((0 : ℚ) = posW.entry_ts →
        stW.est_pnl_usdt = -(posW.fees_total_usdt + posW.entry_basis_cost_usdt)) :=
  c2_pnl_formula envW posW "predicted" 0 5 stW (le_refl 0) (by
    have hA : ("Bybit" : String) ∈ envW.registered := by decide
    have hB : ("Bitget" : String) ∈ envW.registered := by decide
    have f1 : envW.fr4h "Bybit" "BTC" "predicted" = 1 / 2 := by norm_num [envW]
    have f2 : envW.fr4h "Bitget" "BTC" "predicted" = 0 := by
      have hs : ¬("Bitget" : String) = "Bybit" := by decide
      norm_num [envW, hs]
    simp only [evaluate_position_now, posW]
    rw [fetch_fr_4h_mem envW "Bybit" "BTC" "predicted" hA, except_bind_ok]
    rw [fetch_fr_4h_mem envW "Bitget" "BTC" "predicted" hB, except_bind_ok]
    rw [f1, f2]
    norm_num [pydiv, be_fr_4h, estimate_pnl_now, max_def, min_def,
      except_bind_ok, except_bind_error, except_pure, except_throw, bind_ite,
      stW, abs_of_nonneg])

/-- C4 (amended): each leg's notional is its lot-rounded base quantity
times its own mark price; when lot rounding is the identity (and prices
are positive) the two legs have equal notional, and the basis-cost
computation uses the minimum of the two legs' base quantities (the `max 0`
clamp is inert because the quantities are non-negative). -/
theorem c4_matched_sizing (env : Env) (sym hx lx : String) (sn fh fl sh sl : ℚ)
    (hround : ∀ ex s q, env.roundQty ex s q = q)
    (hprice : ∀ ex s, 0 < env.markPrice ex s)
    (lh ll : Leg)
    (h : candidate_legs env sym hx lx sn fh fl sh sl = Except.ok (lh, ll)) :
    lh.notional = ll.notional
      ∧ estimate_entry_basis_cost_usdt lh.mark_price ll.mark_price lh.qty ll.qty sh sl
        = max 0 (ll.mark_price * (1 + sl / 10000) - lh.mark_price * (1 - sh / 10000))
          * min lh.qty ll.qty := by
  obtain ⟨e1, e2⟩ := candidate_legs_ok env sym hx lx sn fh fl sh sl lh ll h
  subst e1
  subst e2
  constructor
  · show env.roundQty hx sym (max 0 (sn / env.markPrice hx sym)) * env.markPrice hx sym
        = env.roundQty lx sym (max 0 (sn / env.markPrice lx sym)) * env.markPrice lx sym
    rw [hround, hround,
      max_mul_of_nonneg _ _ (le_of_lt (hprice hx sym)),
      max_mul_of_nonneg _ _ (le_of_lt (hprice lx sym)), zero_mul, zero_mul,
      div_mul_cancel₀ _ (ne_of_gt (hprice hx sym)),
      div_mul_cancel₀ _ (ne_of_gt (hprice lx sym))]
  · have hq1 : (0 : ℚ) ≤ env.roundQty hx sym (max 0 (sn / env.markPrice hx sym)) := by
      rw [hround]
      exact le_max_left 0 _
    have hq2 : (0 : ℚ) ≤ env.roundQty lx sym (max 0 (sn / env.markPrice lx sym)) := by
      rw [hround]
      exact le_max_left 0 _
    exact basis_eq_min_of_nonneg _ _ _ _ sh sl hq1 hq2

/-- C4 witness: with identity lot rounding and unit prices the two legs
agree on notional and the basis cost is the gap times the minimum base
quantity. -/
theorem c4_witness :
    (builtLegH env4 "BTC" "Bybit" 1 0 0).notional
        = (builtLegL env4 "BTC" "Bitget" 1 0 0).notional
      ∧ estimate_entry_basis_cost_usdt (builtLegH env4 "BTC" "Bybit" 1 0 0).mark_price
          (builtLegL env4 "BTC" "Bitget" 1 0 0).mark_price
          (builtLegH env4 "BTC" "Bybit" 1 0 0).qty
          (builtLegL env4 "BTC" "Bitget" 1 0 0).qty 0 0
        = max 0 ((builtLegL env4 "BTC" "Bitget" 1 0 0).mark_price * (1 + 0 / 10000)
            - (builtLegH env4 "BTC" "Bybit" 1 0 0).mark_price * (1 - 0 / 10000))
          * min (builtLegH env4 "BTC" "Bybit" 1 0 0).qty
            (builtLegL env4 "BTC" "Bitget" 1 0 0).qty :=
  c4_matched_sizing env4 "BTC" "Bybit" "Bitget" 1 0 0 0 0
    (fun _ _ _ => rfl) (fun _ _ => by norm_num [env4])
    (builtLegH env4 "BTC" "Bybit" 1 0 0) (builtLegL env4 "BTC" "Bitget" 1 0 0)
    (candidate_legs_eq env4 "BTC" "Bybit" "Bitget" 1 0 0 0 0 (by decide)
      (by decide) (by norm_num [env4]) (by norm_num [env4]))

/-- C5 (amended): an unknown exchange identifier in either argument
position makes `evaluate_candidate` fail with the registry `ValueError`
at its fetch, before any numeric computation; a zero or negative
settlement interval is not
validated — with a zero interval the evaluation proceeds through fetches,
legs and costs and only raises `ZeroDivisionError` at the annualization
division `24 / interval_h`, and with a negative interval it proceeds even
further and raises `OverflowError` at the `int(inf)` branch of `n_min`
(because `diff_per_int ≤ 0` there). -/
theorem c5_fail_modes (env : Env) (symbol exA exB mode : String)
    (sn fa fb sa sb km : ℚ) :
    ((exA ∉ env.registered ∨ exB ∉ env.registered) → ∀ iv : ℚ,
      evaluate_candidate env symbol exA exB sn fa fb sa sb iv mode km
        = Except.error PyErr.valueError)
      ∧ (exA ∈ env.registered → exB ∈ env.registered →
        (∀ ex s, env.markPrice ex s ≠ 0) →
        (evaluate_candidate env symbol exA exB sn fa fb sa sb 0 mode km
            = Except.error PyErr.zeroDivisionError
          ∧ ∀ iv : ℚ, iv < 0 →
            evaluate_candidate env symbol exA exB sn fa fb sa sb iv mode km
              = Except.error PyErr.overflowError)) := by
  constructor
  · intro hu iv
    by_cases hA : exA ∈ env.registered
    · have hB : exB ∉ env.registered := by
        rcases hu with hh | hh
        · exact absurd hA hh
        · exact hh
      simp only [evaluate_candidate, fetch_fr_4h_mem env exA symbol mode hA,
        fetch_fr_4h_not_mem env exB symbol mode hB, except_bind_ok,
        except_bind_error]
    · rw [evaluate_candidate, fetch_fr_4h_not_mem env exA symbol mode hA,
        except_bind_error]
  · intro hA hB hp
    constructor
    · rw [evaluate_candidate, fetch_fr_4h_mem env exA symbol mode hA,
        except_bind_ok, fetch_fr_4h_mem env exB symbol mode hB, except_bind_ok]
      by_cases hc : env.fr4h exA symbol mode ≥ env.fr4h exB symbol mode
      · simp only [if_pos hc]
        rw [candidate_legs_eq env symbol exA exB sn fa fb sa sb hA hB
          (hp exA symbol) (hp exB symbol), except_bind_ok]
        simp only [eval_finish, pydiv_zero_right, except_bind_error]
      · simp only [if_neg hc]
        rw [candidate_legs_eq env symbol exB exA sn fb fa sb sa hB hA
          (hp exB symbol) (hp exA symbol), except_bind_ok]
        simp only [eval_finish, pydiv_zero_right, except_bind_error]
    · intro iv hiv
      have hne : iv ≠ 0 := ne_of_lt hiv
      rw [evaluate_candidate, fetch_fr_4h_mem env exA symbol mode hA,
        except_bind_ok, fetch_fr_4h_mem env exB symbol mode hB, except_bind_ok]
      by_cases hc : env.fr4h exA symbol mode ≥ env.fr4h exB symbol mode
      · simp only [if_pos hc]
        rw [candidate_legs_eq env symbol exA exB sn fa fb sa sb hA hB
          (hp exA symbol) (hp exB symbol), except_bind_ok]
        simp only [eval_finish, pydiv_of_ne 24 iv hne, except_bind_ok]
        have hng : ¬(|env.fr4h exA symbol mode - env.fr4h exB symbol mode|
            * (iv / 4) > 0) := by
          rw [not_lt]
          have h1 : iv / 4 ≤ 0 := by linarith
          nlinarith [abs_nonneg (env.fr4h exA symbol mode - env.fr4h exB symbol mode)]
        rw [if_neg hng, except_throw]
      · simp only [if_neg hc]
        rw [candidate_legs_eq env symbol exB exA sn fb fa sb sa hB hA
          (hp exB symbol) (hp exA symbol), except_bind_ok]
        simp only [eval_finish, pydiv_of_ne 24 iv hne, except_bind_ok]
        have hng : ¬(|env.fr4h exB symbol mode - env.fr4h exA symbol mode|
            * (iv / 4) > 0) := by
          rw [not_lt]
          have h1 : iv / 4 ≤ 0 := by linarith
          nlinarith [abs_nonneg (env.fr4h exB symbol mode - env.fr4h exA symbol mode)]
        rw [if_neg hng, except_throw]

/-- C5 witness: a zero interval dies with `ZeroDivisionError`, and an
unknown exchange in either argument position is rejected with the
registry `ValueError`. -/
theorem c5_witness :
    evaluate_candidate envD "BTC" "Bybit" "Bitget" 1 0 0 0 0 0 "p" 5
        = Except.error PyErr.zeroDivisionError
      ∧ evaluate_candidate envD "BTC" "MEXC" "Bitget" 1 0 0 0 0 4 "p" 5
        = Except.error PyErr.valueError
      ∧ evaluate_candidate envD "BTC" "Bybit" "MEXC" 1 0 0 0 0 4 "p" 5
        = Except.error PyErr.valueError :=
  ⟨((c5_fail_modes envD "BTC" "Bybit" "Bitget" "p" 1 0 0 0 0 5).2
      (by decide) (by decide) (fun ex s => by norm_num [envD])).1,
    (c5_fail_modes envD "BTC" "MEXC" "Bitget" "p" 1 0 0 0 0 5).1
      (Or.inl (by decide)) 4,
    (c5_fail_modes envD "BTC" "Bybit" "MEXC" "p" 1 0 0 0 0 5).1
      (Or.inr (by decide)) 4⟩

set_option maxHeartbeats 1000000 in
/-- C7: for valid inputs (positive interval, non-negative fee and
slippage assumptions, positive mark prices, non-negative lot rounding),
every `EvalResult` produced by `evaluate_candidate` satisfies
`apr_net_pct ≤ apr_gross_pct`: the break-even term can only reduce the
clamped annualized return. -/
theorem c7_net_le_gross (env : Env) (symbol exA exB : String)
    (sn fa fb sa sb iv : ℚ) (mode : String) (km : ℚ) (hiv : 0 < iv)
    (hfa : 0 ≤ fa) (hfb : 0 ≤ fb) (hsa : 0 ≤ sa) (hsb : 0 ≤ sb)
    (hround : ∀ ex s q, 0 ≤ env.roundQty ex s q)
    (hprice : ∀ ex s, 0 < env.markPrice ex s)
    (r : EvalResult)
    (h : evaluate_candidate env symbol exA exB sn fa fb sa sb iv mode km
      = Except.ok r) :
    r.apr_net_pct ≤ r.apr_gross_pct := by
  by_cases hA : exA ∈ env.registered
  · by_cases hB : exB ∈ env.registered
    · rw [evaluate_candidate, fetch_fr_4h_mem env exA symbol mode hA,
        except_bind_ok, fetch_fr_4h_mem env exB symbol mode hB,
        except_bind_ok] at h
      by_cases hc : env.fr4h exA symbol mode ≥ env.fr4h exB symbol mode
      · simp only [if_pos hc] at h
        rw [candidate_legs_eq env symbol exA exB sn fa fb sa sb hA hB
          (ne_of_gt (hprice exA symbol)) (ne_of_gt (hprice exB symbol)),
          except_bind_ok] at h
        exact eval_finish_net_le_gross symbol exA exB _ _ _ _ iv km hiv
          (mul_nonneg (hround _ _ _) (le_of_lt (hprice exA symbol)))
          (mul_nonneg (hround _ _ _) (le_of_lt (hprice exB symbol)))
          hfa hfb hsa hsb r h
      · simp only [if_neg hc] at h
        rw [candidate_legs_eq env symbol exB exA sn fb fa sb sa hB hA
          (ne_of_gt (hprice exB symbol)) (ne_of_gt (hprice exA symbol)),
          except_bind_ok] at h
        exact eval_finish_net_le_gross symbol exB exA _ _ _ _ iv km hiv
          (mul_nonneg (hround _ _ _) (le_of_lt (hprice exB symbol)))
          (mul_nonneg (hround _ _ _) (le_of_lt (hprice exA symbol)))
          hfb hfa hsb hsa r h
    · rw [evaluate_candidate, fetch_fr_4h_mem env exA symbol mode hA,
        except_bind_ok, fetch_fr_4h_not_mem env exB symbol mode hB,
        except_bind_error] at h
      exact absurd h (by simp)
  · rw [evaluate_candidate, fetch_fr_4h_not_mem env exA symbol mode hA,
      except_bind_error] at h
    exact absurd h (by simp)

set_option maxHeartbeats 1000000 in
/-- C7 witness: the clamped net APR does not exceed the gross APR on a
concrete successful evaluation. -/
theorem c7_witness : rW.apr_net_pct ≤ rW.apr_gross_pct :=
  c7_net_le_gross envW "BTC" "Bybit" "Bitget" 1 0 0 0 0 4 "predicted" 5
    (by norm_num) (le_refl 0) (le_refl 0) (le_refl 0) (le_refl 0)
    (fun _ _ q => le_max_left 0 q) (fun _ _ => by norm_num [envW]) rW (by
      have hs : ¬("Bitget" : String) = "Bybit" := by decide
      have hs2 : ¬("Bybit" : String) = "Bitget" := by decide
      norm_num [evaluate_candidate, fetch_fr_4h, fetch_mark_price,
        candidate_legs, eval_finish, pydiv, envW, total_fees_with_slippage,
        est_vwap_slippage_cost, estimate_entry_basis_cost_usdt, be_fr_4h,
        decisionOf, builtLegH, builtLegL, max_def, min_def, except_bind_ok,
        except_bind_error, except_pure, except_throw, bind_ite, hs, hs2, rW,
        abs_of_nonneg])

/-! Monotonicity lemmas for the liquidity scorer. -/

lemma tier_score_mono (x y t0 t1 t2 t3 : ℚ) (hxy : x ≤ y) :
    tier_score x t0 t1 t2 t3 ≤ tier_score y t0 t1 t2 t3 := by
  unfold tier_score
  split_ifs
  all_goals try norm_num
  all_goals exfalso
  all_goals linarith

lemma rank_order_S : rank_order "S" = 4 := by decide

lemma rank_order_A : rank_order "A" = 3 := by decide

lemma rank_order_B : rank_order "B" = 2 := by decide

lemma rank_order_C : rank_order "C" = 1 := by decide

lemma rank_order_D : rank_order "D" = 0 := by decide

lemma rank_of_total_mono (ta tb : ℤ) (h : ta ≤ tb) :
    rank_order (rank_of_total ta) ≤ rank_order (rank_of_total tb) := by
  unfold rank_of_total
  split_ifs <;>
    simp only [rank_order_S, rank_order_A, rank_order_B, rank_order_C,
      rank_order_D] <;>
    omega

lemma rank_of_total_iff (t : ℤ) :
    (rank_of_total t = "S" ↔ 7 ≤ t) ∧ (rank_of_total t = "A" ↔ 5 ≤ t ∧ t < 7)
      ∧ (rank_of_total t = "B" ↔ 3 ≤ t ∧ t < 5)
      ∧ (rank_of_total t = "C" ↔ 1 ≤ t ∧ t < 3)
      ∧ (rank_of_total t = "D" ↔ t < 1) := by
  unfold rank_of_total
  split_ifs <;>
    refine ⟨⟨fun hh => ?_, fun hh => ?_⟩, ⟨fun hh => ?_, fun hh => ?_⟩,
      ⟨fun hh => ?_, fun hh => ?_⟩, ⟨fun hh => ?_, fun hh => ?_⟩,
      ⟨fun hh => ?_, fun hh => ?_⟩⟩ <;>
    first | rfl | omega | exact absurd hh (by decide) | (exfalso; omega)

/-- C9: the pure liquidity scorer is monotone — raising either leg's 24h
volume or either leg's `min(ask, bid)` book depth, all other fetched
metrics fixed, never decreases the total score or the rank — and the rank
letter is determined from the total by the thresholds `≥7 S, ≥5 A, ≥3 B,
≥1 C, else D`. -/
theorem c9_liquidity_scorer (vol_s vol_l ask_s bid_s ask_l bid_l gap_bps apr
    vol_s2 vol_l2 ask_s2 bid_s2 ask_l2 bid_l2 : ℚ)
    (hv1 : vol_s ≤ vol_s2) (hv2 : vol_l ≤ vol_l2)
    (hd1 : min ask_s bid_s ≤ min ask_s2 bid_s2)
    (hd2 : min ask_l bid_l ≤ min ask_l2 bid_l2) :
    (evaluate_liquidity_and_rank vol_s vol_l ask_s bid_s ask_l bid_l gap_bps apr).1
        ≤ (evaluate_liquidity_and_rank vol_s2 vol_l2 ask_s2 bid_s2 ask_l2 bid_l2
          gap_bps apr).1
      ∧ rank_order (evaluate_liquidity_and_rank vol_s vol_l ask_s bid_s ask_l
            bid_l gap_bps apr).2
        ≤ rank_order (evaluate_liquidity_and_rank vol_s2 vol_l2 ask_s2 bid_s2
            ask_l2 bid_l2 gap_bps apr).2
      ∧ (evaluate_liquidity_and_rank vol_s vol_l ask_s bid_s ask_l bid_l
            gap_bps apr).2
          = rank_of_total (evaluate_liquidity_and_rank vol_s vol_l ask_s bid_s
            ask_l bid_l gap_bps apr).1
      ∧ ((evaluate_liquidity_and_rank vol_s vol_l ask_s bid_s ask_l bid_l
            gap_bps apr).2 = "S"
          ↔ 7 ≤ (evaluate_liquidity_and_rank vol_s vol_l ask_s bid_s ask_l bid_l
            gap_bps apr).1)
      ∧ ((evaluate_liquidity_and_rank vol_s vol_l ask_s bid_s ask_l bid_l
            gap_bps apr).2 = "A"
          ↔ 5 ≤ (evaluate_liquidity_and_rank vol_s vol_l ask_s bid_s ask_l bid_l
              gap_bps apr).1
            ∧ (evaluate_liquidity_and_rank vol_s vol_l ask_s bid_s ask_l bid_l
              gap_bps apr).1 < 7)
      ∧ ((evaluate_liquidity_and_rank vol_s vol_l ask_s bid_s ask_l bid_l
            gap_bps apr).2 = "B"
          ↔ 3 ≤ (evaluate_liquidity_and_rank vol_s vol_l ask_s bid_s ask_l bid_l
              gap_bps apr).1
            ∧ (evaluate_liquidity_and_rank vol_s vol_l ask_s bid_s ask_l bid_l
              gap_bps apr).1 < 5)
      ∧ ((evaluate_liquidity_and_rank vol_s vol_l ask_s bid_s ask_l bid_l
            gap_bps apr).2 = "C"
          ↔ 1 ≤ (evaluate_liquidity_and_rank vol_s vol_l ask_s bid_s ask_l bid_l
              gap_bps apr).1
            ∧ (evaluate_liquidity_and_rank vol_s vol_l ask_s bid_s ask_l bid_l
              gap_bps apr).1 < 3)
      ∧ ((evaluate_liquidity_and_rank vol_s vol_l ask_s bid_s ask_l bid_l
            gap_bps apr).2 = "D"
          ↔ (evaluate_liquidity_and_rank vol_s vol_l ask_s bid_s ask_l bid_l
            gap_bps apr).1 < 1) := by
  have htot : (evaluate_liquidity_and_rank vol_s vol_l ask_s bid_s ask_l bid_l
      gap_bps apr).1
      ≤ (evaluate_liquidity_and_rank vol_s2 vol_l2 ask_s2 bid_s2 ask_l2 bid_l2
        gap_bps apr).1 := by
    have m1 := min_le_min
      (tier_score_mono vol_s vol_s2 2000000000 1000000000 300000000 100000000 hv1)
      (tier_score_mono vol_l vol_l2 2000000000 1000000000 300000000 100000000 hv2)
    have m2 := min_le_min
      (tier_score_mono (min ask_s bid_s) (min ask_s2 bid_s2) 1000000 500000
        200000 100000 hd1)
      (tier_score_mono (min ask_l bid_l) (min ask_l2 bid_l2) 1000000 500000
        200000 100000 hd2)
    exact add_le_add (add_le_add (add_le_add m1 m2) le_rfl) le_rfl
  exact ⟨htot, rank_of_total_mono _ _ htot, rfl, (rank_of_total_iff _).1,
    (rank_of_total_iff _).2.1, (rank_of_total_iff _).2.2.1,
    (rank_of_total_iff _).2.2.2.1, (rank_of_total_iff _).2.2.2.2⟩

/-- C9 witness: raising volumes and depths from zero to deep-liquidity
levels moves the score from -4 (rank D) up to 4 (rank B), never down. -/
theorem c9_witness :
    (evaluate_liquidity_and_rank 0 0 0 0 0 0 20 10).1
        ≤ (evaluate_liquidity_and_rank 2500000000 2500000000 1200000 1100000
          1200000 1100000 20 10).1
      ∧ rank_order (evaluate_liquidity_and_rank 0 0 0 0 0 0 20 10).2
        ≤ rank_order (evaluate_liquidity_and_rank 2500000000 2500000000 1200000
          1100000 1200000 1100000 20 10).2
      ∧ (evaluate_liquidity_and_rank 0 0 0 0 0 0 20 10).2
          = rank_of_total (evaluate_liquidity_and_rank 0 0 0 0 0 0 20 10).1
      ∧ ((evaluate_liquidity_and_rank 0 0 0 0 0 0 20 10).2 = "S"
          ↔ 7 ≤ (evaluate_liquidity_and_rank 0 0 0 0 0 0 20 10).1)
      ∧ ((evaluate_liquidity_and_rank 0 0 0 0 0 0 20 10).2 = "A"
          ↔ 5 ≤ (evaluate_liquidity_and_rank 0 0 0 0 0 0 20 10).1
            ∧ (evaluate_liquidity_and_rank 0 0 0 0 0 0 20 10).1 < 7)
      ∧ ((evaluate_liquidity_and_rank 0 0 0 0 0 0 20 10).2 = "B"
          ↔ 3 ≤ (evaluate_liquidity_and_rank 0 0 0 0 0 0 20 10).1
            ∧ (evaluate_liquidity_and_rank 0 0 0 0 0 0 20 10).1 < 5)
      ∧ ((evaluate_liquidity_and_rank 0 0 0 0 0 0 20 10).2 = "C"
          ↔ 1 ≤ (evaluate_liquidity_and_rank 0 0 0 0 0 0 20 10).1
            ∧ (evaluate_liquidity_and_rank 0 0 0 0 0 0 20 10).1 < 3)
      ∧ ((evaluate_liquidity_and_rank 0 0 0 0 0 0 20 10).2 = "D"
          ↔ (evaluate_liquidity_and_rank 0 0 0 0 0 0 20 10).1 < 1) :=
  c9_liquidity_scorer 0 0 0 0 0 0 20 10 2500000000 2500000000 1200000 1100000
    1200000 1100000 (by norm_num) (by norm_num) (by norm_num [min_def])
    (by norm_num [min_def])

end FrArb
